import Mathlib

set_option linter.unusedVariables false

/-!
Verification of the monorail-scraper OSS-Fuzz bug-report extraction core:
a shallow embedding of `src/monorail_scraper/oss_fuzz/oss_fuzz_bug_report_parser.py`
and `src/monorail_scraper/utils/string_util.py`, followed by theorems about it.

Strings are modelled as Lean `String` and processed through their underlying
`List Char`.  Python's `re` patterns used by the parser are each embedded as an
executable search function implementing exactly that pattern's matching
semantics (leftmost match, non-greedy `+?` and `*?`, `.` not matching a newline
unless DOTALL, and `[\n$]` being a character class containing the two literal
characters newline and dollar).  Every recursive function is structurally
recursive so that concrete instances reduce with `decide`.
-/

namespace Monorail

/-- ASCII whitespace as recognized by Python's `str.strip` and the regex class
in the ASCII range: space, tab, newline, carriage return, vertical tab, form feed. -/
def isPySpace (c : Char) : Bool :=
  c = ' ' || c = '\t' || c = '\n' || c = '\r' || c = '\x0b' || c = '\x0c'

/-- A word character in the sense of the regex class used by
`string_util.almost_equal` (ASCII range): letters, digits, underscore. -/
def isWordChar (c : Char) : Bool :=
  c.isAlphanum || c = '_'

/-- Python `str.strip()` on the character list (ASCII whitespace). -/
def pyStrip (l : List Char) : List Char :=
  ((l.dropWhile isPySpace).reverse.dropWhile isPySpace).reverse

/-- Python `str.split(sep)` for a one-character separator: splits at every
occurrence, keeping empty pieces; the empty string yields `[[]]`. -/
def pySplit (sep : Char) : List Char → List (List Char)
  | [] => [[]]
  | c :: cs =>
    if c = sep then
      [] :: pySplit sep cs
    else
      match pySplit sep cs with
      | [] => [[c]]
      | t :: ts => (c :: t) :: ts

/-- Substring containment on character lists (Python's `needle in haystack`). -/
def listContainsSub : List Char → List Char → Bool
  | [], needle => needle.isEmpty
  | c :: cs, needle => needle.isPrefixOf (c :: cs) || listContainsSub cs needle

/-- Python's `needle in haystack` on strings. -/
def pyIn (needle haystack : String) : Bool :=
  listContainsSub haystack.data needle.data

/-- The character class written in the source's patterns as the two-literal
class of newline and dollar (inside square brackets a dollar is a literal). -/
def classNL (c : Char) : Bool :=
  c = '\n' || c = '$'

/-- Matching of the lazy tail written in the source's single-line patterns with
a possibly empty group: the shortest (possibly empty) run of characters up to
the first newline-or-dollar character; `none` when no such terminator exists. -/
def takeUntilNL : List Char → Option (List Char)
  | [] => none
  | c :: cs => if classNL c then some [] else (takeUntilNL cs).map (c :: ·)

/-- Matching of the lazy tail of the single-line patterns with a nonempty group:
one character (which the dot cannot match when it is a newline) followed by the
shortest run up to the first newline-or-dollar character. -/
def lazyPlusNL : List Char → Option (List Char)
  | [] => none
  | c :: cs => if c = '\n' then none else (takeUntilNL cs).map (c :: ·)

/-- Try matching, at the current position, one of the alternative literal
markers followed by the continuation `k` on the rest.  The markers model a
literal prefix of the pattern (with a one-character alternation spelled out as
two alternative literals); at any one position at most one alternative applies. -/
def tryMarkers (markers : List String) (k : List Char → Option (List Char))
    (t : List Char) : Option (List Char) :=
  markers.findSome? (fun m => if m.data.isPrefixOf t then k (t.drop m.data.length) else none)

/-- `re.search` semantics for the patterns of the source: scan positions left to
right; at each position try the literal marker(s) and, on success, the tail
continuation `k`; the first position where the whole pattern matches yields the
capture group.  Advancing on failure of `k` models the engine moving its start
position forward. -/
def searchAux (markers : List String) (k : List Char → Option (List Char)) :
    List Char → Option String
  | [] => none
  | c :: cs =>
    match tryMarkers markers k (c :: cs) with
    | some v => some (String.mk v)
    | none => searchAux markers k cs

/-- A compiled pattern: the regex source text (used in the hard-failure message)
together with its search function returning capture group 1. -/
structure Pattern where
  regex : String
  search : String → Option String

/-- A single-line pattern of the source: literal marker(s), then a lazy group
(`allowEmpty` distinguishing star from plus), then the newline-or-dollar class. -/
def linePat (regex : String) (markers : List String) (allowEmpty : Bool) : Pattern :=
  ⟨regex, fun s => searchAux markers (if allowEmpty then takeUntilNL else lazyPlusNL) s.data⟩

def jobTypePat : Pattern := linePat "Job Type: (.+?)[\\n$]" ["Job Type: "] false

def targetPat : Pattern := linePat "Target: (.+?)[\\n$]" ["Target: "] false

def projectPat : Pattern := linePat "Project: (.+?)[\\n$]" ["Project: "] false

def fuzzingEnginePat : Pattern :=
  linePat "Fuzzing [Ee]ngine: (.+?)[\\n$]" ["Fuzzing Engine: ", "Fuzzing engine: "] false

def fuzzTargetPat : Pattern :=
  linePat "Fuzz [Tt]arget: (.+?)[\\n$]" ["Fuzz Target: ", "Fuzz target: "] false

def fuzzTargetBinaryPat : Pattern :=
  linePat "Fuzz target binary: (.+?)[\\n$]" ["Fuzz target binary: "] false

def fuzzerBinaryPat : Pattern := linePat "Fuzzer binary: (.+?)[\\n$]" ["Fuzzer binary: "] false

def fuzzerPat : Pattern := linePat "Fuzzer: (.+?)[\\n$]" ["Fuzzer: "] false

def platformIdPat : Pattern := linePat "Platform Id: (.+?)[\\n$]" ["Platform Id: "] false

def crashTypePat : Pattern := linePat "Crash Type: (.*?)[\\n$]" ["Crash Type: "] true

def crashAddressPat : Pattern := linePat "Crash Address: (.*?)[\\n$]" ["Crash Address: "] true

def sanitizerLinePat : Pattern := linePat "Sanitizer: (.+?)[\\n$]" ["Sanitizer: "] false

def regressedPat : Pattern := linePat "Regressed: (.+?)[\\n$]" ["Regressed: "] false

def crashRevisionPat : Pattern := linePat "Crash Revision: (.+?)[\\n$]" ["Crash Revision: "] false

def fixedPat : Pattern := linePat "Fixed: (.+?)[\\n$]" ["Fixed: "] false

def reproducerPat : Pattern :=
  linePat "Reproducer Testcase: (.+?)[\\n$]" ["Reproducer Testcase: "] false

def unminimizedPat : Pattern :=
  linePat "Unminimized Testcase: (.+?)[\\n$]" ["Unminimized Testcase: "] false

def downloadPat : Pattern := linePat "Download: (.+?)[\\n$]" ["Download: "] false

/-- Matching of the lazy star-then-newline part `\s*` then a newline, with
backtracking: true when some (possibly empty) run of whitespace is followed by
a newline (a newline is itself whitespace, so a leading newline succeeds). -/
def wsThenNL : List Char → Bool
  | [] => false
  | c :: cs => if c = '\n' then true else if isPySpace c then wsThenNL cs else false

/-- Terminator alternation of the crash-state pattern: the literal
word Sanitizer, or whitespace leading to a newline (a blank-ish line). -/
def crashTerm (u : List Char) : Bool :=
  ("Sanitizer".data.isPrefixOf u) || wsThenNL u

/-- Lazy DOTALL group of the crash-state pattern: shortest (possibly empty)
prefix, newlines included, whose next character is a newline followed by the
terminator alternation. -/
def crashTail : List Char → Option (List Char)
  | [] => none
  | c :: cs => if c = '\n' && crashTerm cs then some [] else (crashTail cs).map (c :: ·)

/-- The multi-line crash-state pattern, compiled with DOTALL in the source. -/
def crashStatePat : Pattern :=
  ⟨"Crash State:\\n(.*?)\\n(?:Sanitizer|\\s*\\n)",
   fun s => searchAux ["Crash State:\n"] crashTail s.data⟩

/-- Tail of the verified-as-fixed pattern after its literal marker: one or more
digits (only the maximal run can be followed by the space-led literal), then
the literal connective, then the usual lazy single-line capture. -/
def verifiedTail (t : List Char) : Option (List Char) :=
  let ds := t.takeWhile Char.isDigit
  let rest := t.dropWhile Char.isDigit
  if ds.isEmpty then none
  else if (" is verified as fixed in ").data.isPrefixOf rest then
    lazyPlusNL (rest.drop (" is verified as fixed in ").data.length)
  else none

/-- The fixed-commit pattern used for issues with id at least 14835. -/
def verifiedFixedPat : Pattern :=
  ⟨"ClusterFuzz testcase [0-9]+ is verified as fixed in (.+?)[\\n$]",
   fun s => searchAux ["ClusterFuzz testcase "] verifiedTail s.data⟩

/-- Scanning part of the minimized-testcase pattern: after at least one
character of the first lazy group, look for the literal close-paren-colon-space
and a successful capture after it, consuming one non-newline character and
rescanning on failure (the lazy group growing by backtracking). -/
def minimizedScan : List Char → Option (List Char)
  | [] => none
  | c :: cs =>
    if ("): ").data.isPrefixOf (c :: cs) then
      match lazyPlusNL ((c :: cs).drop 3) with
      | some v => some v
      | none => if c = '\n' then none else minimizedScan cs
    else if c = '\n' then none else minimizedScan cs

/-- Tail of the minimized-testcase pattern after its literal marker: the first
lazy group must consume at least one non-newline character before the scan. -/
def minimizedTail : List Char → Option (List Char)
  | [] => none
  | c :: cs => if c = '\n' then none else minimizedScan cs

/-- The minimized-testcase pattern (its parentheses are literals). -/
def minimizedPat : Pattern :=
  ⟨"Minimized Testcase \\(.+?\\): (.+?)[\\n$]",
   fun s => searchAux ["Minimized Testcase ("] minimizedTail s.data⟩

/-- The two failure kinds of the source: the generic Warning raised by
`string_util.capture` on a failed strict match (carrying the pattern text), and
the ScrapeException raised by the classifier. -/
inductive PyError where
  | warning : String → PyError
  | scrapeException : String → PyError
  deriving DecidableEq, Repr

deriving instance DecidableEq for Except

/-- `string_util.capture` with `fail_gently=False`: hard failure (an exception,
modelled as `Except.error`) when the pattern has no match. -/
def captureStrict (input : String) (pat : Pattern) : Except PyError String :=
  match pat.search input with
  | some v => Except.ok v
  | none => Except.error (PyError.warning pat.regex)

/-- `string_util.capture` with `fail_gently=True`: `none` when the pattern has
no match. -/
def captureGently (input : String) (pat : Pattern) : Option String :=
  pat.search input

/-- Processing done by `string_util.almost_equal` on a present string: strip,
casefold (modelled character-wise as lowercasing, faithful on ASCII), then
remove every non-word character (removing each run of them, as the source's
substitution does, removes exactly the non-word characters). -/
def processedChars (s : String) : List Char :=
  ((pyStrip s.data).map Char.toLower).filter isWordChar

/-- `string_util.almost_equal`: null-safe fuzzy string equality. -/
def almost_equal : Option String → Option String → Bool
  | none, none => true
  | none, some _ => false
  | some _, none => false
  | some s1, some s2 => decide (processedChars s1 = processedChars s2)

/-- Modelled from the spec: the Comment record shape of section 3 (the class in
`monorail_scraper/issue/issue.py` is not under `src/`); only the author and the
body take part in extraction. -/
structure Comment where
  author : String
  body : String
  deriving DecidableEq, Repr

/-- Modelled from the spec: the BugReport of section 3 (the dataclass in
`monorail_scraper/oss_fuzz/oss_fuzz_bug_report.py` is not under `src/`): nine
string fields, the ordered crash-state lines, and the two commit urls that are
either a string or explicitly absent. -/
structure OSSFuzzBugReport where
  project : String
  fuzzing_engine : String
  fuzz_target_binary : String
  job_type : String
  platform_id : String
  crash_type : String
  crash_addr : String
  crash_state : List String
  sanitizer : String
  regressed_commits_url : Option String
  fixed_commits_url : Option String
  testcase_url : String
  deriving DecidableEq, Repr

/-- Modelled from the spec: the Record shape of section 3 (the Issue dataclass
in `monorail_scraper/issue/issue.py` is not under `src/`), restricted to the
fields the classifier and extractor read, plus the bug-report attachment slot. -/
structure Issue where
  id : Nat
  author : String
  project : String
  description : String
  metadata : List (String × String)
  comments : List Comment
  oss_fuzz_bug_report : Option OSSFuzzBugReport
  deriving DecidableEq, Repr

/-- Python `key in dict` on the metadata mapping (keys unique per the spec). -/
def dictContains (md : List (String × String)) (k : String) : Bool :=
  md.any (fun kv => kv.1 == k)

/-- Python `dict.get(key, default)` on the metadata mapping. -/
def dictGet (md : List (String × String)) (k : String) (dflt : String) : String :=
  match md.find? (fun kv => kv.1 == k) with
  | some kv => kv.2
  | none => dflt

/-- `is_oss_fuzz_bug_report`: the classifier.  Raises (as `Except.error`) when
the project fuzzily matches and the Type metadata key is missing; otherwise
decides membership from project, author and the Type value. -/
def is_oss_fuzz_bug_report (issue : Issue) : Except PyError Bool :=
  let is_oss_fuzz := almost_equal (some "oss-fuzz") (some issue.project)
  let authored_by_clusterfuzz := almost_equal (some "ClusterFuzz-External") (some issue.author)
  if is_oss_fuzz && !(dictContains issue.metadata "Type") then
    Except.error (PyError.scrapeException "Missing Type metadata")
  else
    let is_nonsecurity_bug_report := almost_equal (some "Bug") (some (dictGet issue.metadata "Type" ""))
    let is_security_bug_report := almost_equal (some "Bug-Security") (some (dictGet issue.metadata "Type" ""))
    Except.ok (is_oss_fuzz && authored_by_clusterfuzz &&
      (is_nonsecurity_bug_report || is_security_bug_report))

/-- `_get_jobtype`: strict capture of the Job Type line. -/
def get_jobtype (description : String) : Except PyError String :=
  captureStrict description jobTypePat

/-- `_get_project`: id-epoch selection of the project rule; the first branch
derives the project from the stripped job type's last underscore token. -/
def get_project (description : String) (id : Nat) : Except PyError String :=
  if id ≤ 135 then do
    let jobtype ← get_jobtype description
    pure (String.mk ((pySplit '_' (pyStrip jobtype.data)).getLastD []))
  else if 135 ≤ id && id ≤ 212 then
    captureStrict description targetPat
  else
    captureStrict description projectPat

/-- `_get_fuzzing_engine`: the js-fuzzer content marker, then id-epoch
selection between the job-type-derived engine name and the strict capture. -/
def get_fuzzing_engine (description : String) (id : Nat) : Except PyError String :=
  if pyIn "Fuzzer: js_fuzzer" description then
    Except.ok "js_fuzzer"
  else if id ≤ 16307 then do
    let jobtype ← get_jobtype description
    if ("afl").data.isPrefixOf jobtype.data then pure "afl"
    else if ("libfuzzer").data.isPrefixOf jobtype.data then pure "libFuzzer"
    else if ("honggfuzz").data.isPrefixOf jobtype.data then pure "honggfuzz"
    else pure (String.mk ((pySplit '_' jobtype.data).headD []))
  else
    captureStrict description fuzzingEnginePat

/-- The job-type-derived fuzzing-engine name, as the second rule of the spec's
fuzzing-engine table describes it: the known prefixes afl, libfuzzer and
honggfuzz map to the engine names, and otherwise the first underscore token of
the job type is returned verbatim. -/
def engineFromJobtype (jobtype : String) : String :=
  if ("afl").data.isPrefixOf jobtype.data then "afl"
  else if ("libfuzzer").data.isPrefixOf jobtype.data then "libFuzzer"
  else if ("honggfuzz").data.isPrefixOf jobtype.data then "honggfuzz"
  else String.mk ((pySplit '_' jobtype.data).headD [])

/-- `special_fuzzers`: fuzzer names returned unchanged as the target binary. -/
def special_fuzzers : List String :=
  ["js_fuzzer", "ftfuzzer", "magic_fuzzer", "guetzli_fuzzer"]

/-- Everything after the first occurrence of the separator, or `none` when the
separator does not occur (Python `split(sep, maxsplit=1)` restricted to what
`_get_fuzz_target_binary` reads of it). -/
def afterFirstSep (sep : Char) : List Char → Option (List Char)
  | [] => none
  | c :: cs => if c = sep then some cs else afterFirstSep sep cs

/-- `_get_fuzz_target_binary`: ordered graceful fallbacks, then the strict
Fuzzer capture with the special-case list and the split-once derivation. -/
def get_fuzz_target_binary (description : String) (id : Nat) : Except PyError String :=
  match captureGently description fuzzTargetPat with
  | some fuzz_target_binary => Except.ok fuzz_target_binary
  | none =>
    match captureGently description fuzzTargetBinaryPat with
    | some fuzz_target_binary => Except.ok fuzz_target_binary
    | none =>
      match captureGently description fuzzerBinaryPat with
      | some fuzz_target_binary => Except.ok fuzz_target_binary
      | none => do
        let fuzzer ← captureStrict description fuzzerPat
        if special_fuzzers.contains fuzzer then
          pure fuzzer
        else
          match afterFirstSep '_' fuzzer.data with
          | none => pure ""
          | some rest => pure (String.mk rest)

/-- `_get_job_type`: strict capture of the Job Type line. -/
def get_job_type (description : String) : Except PyError String :=
  captureStrict description jobTypePat

/-- `_get_platform_id`: graceful capture with the empty string as default. -/
def get_platform_id (description : String) : String :=
  match captureGently description platformIdPat with
  | some platform => platform
  | none => ""

/-- `_get_crash_type`: strict capture whose group may be empty. -/
def get_crash_type (description : String) : Except PyError String :=
  captureStrict description crashTypePat

/-- `_get_crash_address`: strict capture whose group may be empty. -/
def get_crash_address (description : String) : Except PyError String :=
  captureStrict description crashAddressPat

/-- The line cleanup loop of `_get_crash_state`: split the raw block on
newlines, strip each line, keep the nonempty ones in order. -/
def cleanCrashLines (raw : String) : List String :=
  (((pySplit '\n' raw.data).map pyStrip).filter (fun l => 0 < l.length)).map String.mk

/-- `_get_crash_state`: strict multi-line capture then the line cleanup loop. -/
def get_crash_state (description : String) : Except PyError (List String) := do
  let raw ← captureStrict description crashStatePat
  pure (cleanCrashLines raw)

/-- The scanning loop of `_get_sanitizer_from_jobtype` over underscore tokens. -/
def sanitizerScan : List (List Char) → String
  | [] => ""
  | w :: ws =>
    if almost_equal (some (String.mk w)) (some "asan") then "address (ASAN)"
    else if almost_equal (some (String.mk w)) (some "ubsan") then "undefined (UBSAN)"
    else if almost_equal (some (String.mk w)) (some "msan") then "memory (MSAN)"
    else if almost_equal (some (String.mk w)) (some "tsan") then "thread (TSAN)"
    else if almost_equal (some (String.mk w)) (some "lsan") then "leak (LSAN)"
    else sanitizerScan ws

/-- `_get_sanitizer_from_jobtype`: first fuzzily matching token wins. -/
def get_sanitizer_from_jobtype (jobtype : String) : String :=
  sanitizerScan (pySplit '_' jobtype.data)

/-- `_get_sanitizer`: id-epoch selection between the job-type derivation and
the strict Sanitizer capture. -/
def get_sanitizer (description : String) (id : Nat) : Except PyError String :=
  if id ≤ 383 then do
    let jobtype ← captureStrict description jobTypePat
    pure (get_sanitizer_from_jobtype jobtype)
  else
    captureStrict description sanitizerLinePat

/-- `_get_regressed_commits_url`: two graceful captures, explicitly absent when
both miss. -/
def get_regressed_commits_url (description : String) : Option String :=
  match captureGently description regressedPat with
  | some url => some url
  | none =>
    match captureGently description crashRevisionPat with
    | some url => some url
    | none => none

/-- The comment loop of `_get_fixed_commits_url`: skip comments whose author is
not exactly the ClusterFuzz-External string, return the first body match. -/
def fixedScan (pat : Pattern) : List Comment → Option String
  | [] => none
  | comment :: rest =>
    if comment.author ≠ "ClusterFuzz-External" then fixedScan pat rest
    else
      match pat.search comment.body with
      | none => fixedScan pat rest
      | some url => some url

/-- `_get_fixed_commits_url`: id-epoch pattern selection then the comment scan;
`none` (explicitly absent) when no comment yields a match. -/
def get_fixed_commits_url (comments : List Comment) (id : Nat) : Option String :=
  let pat := if id ≤ 14834 then fixedPat else verifiedFixedPat
  fixedScan pat comments

/-- `_get_testcase_url`: three graceful fallbacks then the strict Download capture. -/
def get_testcase_url (description : String) : Except PyError String :=
  match captureGently description reproducerPat with
  | some url => Except.ok url
  | none =>
    match captureGently description minimizedPat with
    | some url => Except.ok url
    | none =>
      match captureGently description unminimizedPat with
      | some url => Except.ok url
      | none => captureStrict description downloadPat

/-- `parse_oss_fuzz_bug_report_details`: run every field rule and build the one
report; any hard failure short-circuits through the `Except` bind. -/
def parse_oss_fuzz_bug_report_details (issue : Issue) : Except PyError OSSFuzzBugReport := do
  let id := issue.id
  let description := issue.description
  let comments := issue.comments
  let project ← get_project description id
  let fuzzing_engine ← get_fuzzing_engine description id
  let fuzz_target_binary ← get_fuzz_target_binary description id
  let job_type ← get_job_type description
  let platform_id := get_platform_id description
  let crash_type ← get_crash_type description
  let crash_addr ← get_crash_address description
  let crash_state ← get_crash_state description
  let sanitizer ← get_sanitizer description id
  let regressed_commits_url := get_regressed_commits_url description
  let fixed_commits_url := get_fixed_commits_url comments id
  let testcase_url ← get_testcase_url description
  pure { project := project, fuzzing_engine := fuzzing_engine,
         fuzz_target_binary := fuzz_target_binary, job_type := job_type,
         platform_id := platform_id, crash_type := crash_type,
         crash_addr := crash_addr, crash_state := crash_state,
         sanitizer := sanitizer, regressed_commits_url := regressed_commits_url,
         fixed_commits_url := fixed_commits_url, testcase_url := testcase_url }

/-- `attach_oss_fuzz_bug_report`: classifier gate, then parse and attach.  The
source mutates the issue in place; the embedding returns the issue paired with
the boolean, the attached report living in the `oss_fuzz_bug_report` slot. -/
def attach_oss_fuzz_bug_report (issue : Issue) : Except PyError (Bool × Issue) := do
  let isReport ← is_oss_fuzz_bug_report issue
  if !isReport then
    pure (false, issue)
  else do
    let report ← parse_oss_fuzz_bug_report_details issue
    pure (true, { issue with oss_fuzz_bug_report := some report })

/-- Reduction of the `Except` monad's bind on a success value. -/
theorem exceptBindOk {ε α β : Type} (a : α) (f : α → Except ε β) :
    (Except.ok a : Except ε α) >>= f = f a := rfl

/-- Reduction of the `Except` monad's bind on an error value. -/
theorem exceptBindError {ε α β : Type} (e : ε) (f : α → Except ε β) :
    (Except.error e : Except ε α) >>= f = Except.error e := rfl

/-- Reduction of the `Except` monad's pure. -/
theorem exceptPure {ε α : Type} (a : α) :
    (pure a : Except ε α) = Except.ok a := rfl

/-- Unfolding of the assembler's do-notation into explicit `Except.bind`. -/
theorem attach_bind_eq (issue : Issue) :
    attach_oss_fuzz_bug_report issue =
      Except.bind (is_oss_fuzz_bug_report issue) (fun isReport =>
        if !isReport then Except.ok (false, issue)
        else Except.bind (parse_oss_fuzz_bug_report_details issue) (fun report =>
          Except.ok (true, { issue with oss_fuzz_bug_report := some report }))) := rfl

/-- C1: for every record, the assembler either returns false with the record
unchanged when the classifier returns false, or returns true having attached
exactly one fully-built report (every field of the `OSSFuzzBugReport`
structure is total, so all twelve fields are defined, the two commit urls
possibly being the explicit absent value), or propagates a hard failure from
the classifier or from an extraction rule; a partially-populated report is
never attached because the report is only constructed after every rule has
succeeded in the `Except` bind chain. -/
theorem C1_attach_all_or_nothing (issue : Issue) :
    (is_oss_fuzz_bug_report issue = Except.ok false ∧
      attach_oss_fuzz_bug_report issue = Except.ok (false, issue)) ∨
    (∃ report, is_oss_fuzz_bug_report issue = Except.ok true ∧
      attach_oss_fuzz_bug_report issue =
        Except.ok (true, { issue with oss_fuzz_bug_report := some report })) ∨
    (∃ e, attach_oss_fuzz_bug_report issue = Except.error e) := by
  rw [attach_bind_eq]
  cases h : is_oss_fuzz_bug_report issue with
  | error e => exact Or.inr (Or.inr ⟨e, rfl⟩)
  | ok b =>
    cases b with
    | false => exact Or.inl ⟨rfl, rfl⟩
    | true =>
      cases hp : parse_oss_fuzz_bug_report_details issue with
      | error e =>
        refine Or.inr (Or.inr ⟨e, ?_⟩)
        simp [Except.bind, hp]
      | ok report =>
        refine Or.inr (Or.inl ⟨report, rfl, ?_⟩)
        simp [Except.bind, hp]

/-- C2: for every record whose project fuzzily matches the target project and
whose metadata has no Type key, the classifier raises the hard failure rather
than returning false, regardless of the record's author. -/
theorem C2_missing_type_raises (issue : Issue)
    (hproj : almost_equal (some "oss-fuzz") (some issue.project) = true)
    (htype : dictContains issue.metadata "Type" = false) :
    is_oss_fuzz_bug_report issue =
      Except.error (PyError.scrapeException "Missing Type metadata") := by
  simp [is_oss_fuzz_bug_report, hproj, htype]

/-- Witness for C2 at a concrete record: project matching fuzzily, an arbitrary
author, and no metadata. -/
theorem C2_missing_type_raises_witness :
    almost_equal (some "oss-fuzz") (some "OSS Fuzz") = true ∧
    dictContains ([] : List (String × String)) "Type" = false ∧
    is_oss_fuzz_bug_report ⟨9999, "arbitrary-author", "OSS Fuzz", "", [], [], none⟩ =
      Except.error (PyError.scrapeException "Missing Type metadata") :=
  ⟨by decide, by decide,
   C2_missing_type_raises ⟨9999, "arbitrary-author", "OSS Fuzz", "", [], [], none⟩
     (by decide) (by decide)⟩

/-- C3 counterexample: a record whose author does not fuzzily match the target
author (so the claim's hypothesis holds) but whose project is the target and
whose metadata lacks the Type key makes the classifier raise instead of
returning false — refuting the claim as stated. -/
theorem C3_counterexample :
    almost_equal (some "ClusterFuzz-External") (some "unrelated-author") = false ∧
    is_oss_fuzz_bug_report ⟨7, "unrelated-author", "oss-fuzz", "", [], [], none⟩ =
      Except.error (PyError.scrapeException "Missing Type metadata") :=
  ⟨by decide, by decide⟩

/-- C3 amended: for every record whose project does not fuzzily match the
target project, or whose author does not fuzzily match the target author while
the metadata does carry a Type key, the classifier returns false and does not
raise. -/
theorem C3_amended_classifier_false (issue : Issue)
    (h : almost_equal (some "oss-fuzz") (some issue.project) = false ∨
        (almost_equal (some "ClusterFuzz-External") (some issue.author) = false ∧
         dictContains issue.metadata "Type" = true)) :
    is_oss_fuzz_bug_report issue = Except.ok false := by
  rcases h with h | ⟨ha, ht⟩
  · simp [is_oss_fuzz_bug_report, h]
  · simp [is_oss_fuzz_bug_report, ha, ht]

/-- Witness for the amended C3 at a concrete record from another project. -/
theorem C3_amended_classifier_false_witness :
    (almost_equal (some "oss-fuzz") (some "chromium") = false ∨
      (almost_equal (some "ClusterFuzz-External") (some "somebody") = false ∧
       dictContains ([] : List (String × String)) "Type" = true)) ∧
    is_oss_fuzz_bug_report ⟨42, "somebody", "chromium", "", [], [], none⟩ =
      Except.ok false :=
  ⟨Or.inl (by decide),
   C3_amended_classifier_false ⟨42, "somebody", "chromium", "", [], [], none⟩
     (Or.inl (by decide))⟩

/-- C4: the single-line patterns do not stop at end-of-text.  The class written
after the lazy group contains the two literal characters newline and dollar (a
dollar inside square brackets is not an anchor), so a field line followed by a
newline is captured, but the same line as the last thing in the text with no
trailing newline makes the pattern miss entirely and the strict capture raise
a hard failure — and a literal dollar character does terminate the value.
This refutes the claim that the captured value is the same in both cases. -/
theorem C4_no_newline_hard_failure :
    get_job_type "Job Type: libfuzzer_asan_example\n" = Except.ok "libfuzzer_asan_example" ∧
    get_job_type "Job Type: libfuzzer_asan_example" =
      Except.error (PyError.warning jobTypePat.regex) ∧
    get_job_type "Job Type: libfuzzer_asan_example$tail" = Except.ok "libfuzzer_asan_example" :=
  ⟨by decide, by decide, by decide⟩

/-- C5: the project rule selects by id with an inclusive upper boundary at 135:
below or at 135 the project is the last underscore token of the stripped strict
job-type capture, from 136 to 212 it is the strict Target capture, above 212
the strict Project capture; at the boundary, id 135 uses the job-type rule and
id 136 the Target rule on a description where the two rules yield different
values. -/
theorem C5_project_epochs :
    (∀ (d : String) (id : Nat), id ≤ 135 →
      get_project d id =
        Except.map (fun jt => String.mk ((pySplit '_' (pyStrip jt.data)).getLastD []))
          (get_jobtype d)) ∧
    (∀ (d : String) (id : Nat), 135 < id → id ≤ 212 →
      get_project d id = captureStrict d targetPat) ∧
    (∀ (d : String) (id : Nat), 212 < id →
      get_project d id = captureStrict d projectPat) ∧
    get_project "Job Type: libfuzzer_asan_zlib\nTarget: curl\nProject: openssl\n" 135 =
      Except.ok "zlib" ∧
    get_project "Job Type: libfuzzer_asan_zlib\nTarget: curl\nProject: openssl\n" 136 =
      Except.ok "curl" := by
  refine ⟨?_, ?_, ?_, by decide, by decide⟩
  · intro d id h
    simp only [get_project, if_pos h]
    cases hj : get_jobtype d <;> simp [hj, Except.map, Except.bind]
  · intro d id h1 h2
    have h3 : ¬ id ≤ 135 := by omega
    have h4 : 135 ≤ id := by omega
    simp [get_project, h3, h4, h2]
  · intro d id h1
    have h3 : ¬ id ≤ 135 := by omega
    have h4 : ¬ id ≤ 212 := by omega
    simp [get_project, h3, h4]

/-- Witness for C5, instantiating each id-epoch branch at a concrete id and
description. -/
theorem C5_project_epochs_witness :
    (100 ≤ 135 ∧
      get_project "Job Type: libfuzzer_asan_curl\n" 100 =
        Except.map (fun jt => String.mk ((pySplit '_' (pyStrip jt.data)).getLastD []))
          (get_jobtype "Job Type: libfuzzer_asan_curl\n")) ∧
    (135 < 200 ∧ 200 ≤ 212 ∧
      get_project "Target: curl\n" 200 = captureStrict "Target: curl\n" targetPat) ∧
    (212 < 300 ∧
      get_project "Project: curl\n" 300 = captureStrict "Project: curl\n" projectPat) :=
  ⟨⟨by decide, C5_project_epochs.1 "Job Type: libfuzzer_asan_curl\n" 100 (by decide)⟩,
   ⟨by decide, by decide, C5_project_epochs.2.1 "Target: curl\n" 200 (by decide) (by decide)⟩,
   ⟨by decide, C5_project_epochs.2.2.1 "Project: curl\n" 300 (by decide)⟩⟩

/-- C6: the fuzzing-engine rule returns the fixed js-fuzzer value whenever the
description contains the literal js-fuzzer marker, regardless of id; otherwise
id 16307 yields the job-type-derived engine name (the afl, libFuzzer and
honggfuzz prefix mapping, else the first underscore token of the job type) and
id 16308 yields the strict Fuzzing Engine capture — shown both in general and
on a concrete description carrying a parsable Job Type line and an explicit
Fuzzing Engine line that disagree. -/
theorem C6_fuzzing_engine_epochs :
    (∀ (d : String) (id : Nat), pyIn "Fuzzer: js_fuzzer" d = true →
      get_fuzzing_engine d id = Except.ok "js_fuzzer") ∧
    (∀ d : String, pyIn "Fuzzer: js_fuzzer" d = false →
      get_fuzzing_engine d 16307 = Except.map engineFromJobtype (get_jobtype d) ∧
      get_fuzzing_engine d 16308 = captureStrict d fuzzingEnginePat) ∧
    get_fuzzing_engine "Job Type: libfuzzer_asan_foo\nFuzzing Engine: honggfuzz\n" 16307 =
      Except.ok "libFuzzer" ∧
    get_fuzzing_engine "Job Type: libfuzzer_asan_foo\nFuzzing Engine: honggfuzz\n" 16308 =
      Except.ok "honggfuzz" := by
  refine ⟨?_, ?_, by decide, by decide⟩
  · intro d id h
    simp [get_fuzzing_engine, h]
  · intro d h
    constructor
    · cases hj : get_jobtype d with
      | error e =>
        simp [get_fuzzing_engine, h, hj, exceptBindError, Except.map]
      | ok a =>
        simp [get_fuzzing_engine, h, hj, exceptBindOk, exceptPure, Except.map,
          engineFromJobtype]
        split_ifs <;> rfl
    · simp [get_fuzzing_engine, h]

/-- Witness for C6, instantiating the js-fuzzer marker branch and the two
id-epoch branches at concrete descriptions. -/
theorem C6_fuzzing_engine_epochs_witness :
    (pyIn "Fuzzer: js_fuzzer" "Fuzzer: js_fuzzer\n" = true ∧
      get_fuzzing_engine "Fuzzer: js_fuzzer\n" 12345 = Except.ok "js_fuzzer") ∧
    (pyIn "Fuzzer: js_fuzzer" "Job Type: afl_asan_x\nFuzzing Engine: other\n" = false ∧
      get_fuzzing_engine "Job Type: afl_asan_x\nFuzzing Engine: other\n" 16307 =
        Except.map engineFromJobtype (get_jobtype "Job Type: afl_asan_x\nFuzzing Engine: other\n") ∧
      get_fuzzing_engine "Job Type: afl_asan_x\nFuzzing Engine: other\n" 16308 =
        captureStrict "Job Type: afl_asan_x\nFuzzing Engine: other\n" fuzzingEnginePat) :=
  ⟨⟨by decide, C6_fuzzing_engine_epochs.1 "Fuzzer: js_fuzzer\n" 12345 (by decide)⟩,
   ⟨by decide,
    C6_fuzzing_engine_epochs.2.1 "Job Type: afl_asan_x\nFuzzing Engine: other\n" (by decide)⟩⟩

/-- C7: the crash-state rule captures the block between the Crash State marker
and the next Sanitizer marker or blank line, splits it into lines, strips each,
drops the empty ones and preserves the order of the rest; on the spec's sample
block it yields the three frames in order, and an empty block yields the empty
sequence. -/
theorem C7_crash_state_cleanup :
    (∀ (d raw : String), captureStrict d crashStatePat = Except.ok raw →
      get_crash_state d =
        Except.ok ((((pySplit '\n' raw.data).map pyStrip).filter
          (fun l => 0 < l.length)).map String.mk)) ∧
    get_crash_state "Crash State:\n  top frame\n  middle\n  bottom\n\nSanitizer: ASAN" =
      Except.ok ["top frame", "middle", "bottom"] ∧
    get_crash_state "Crash State:\n\nSanitizer: ASAN" = Except.ok ([] : List String) := by
  refine ⟨?_, by decide, by decide⟩
  intro d raw h
  simp [get_crash_state, h, exceptBindOk, exceptPure, cleanCrashLines]

/-- Witness for C7 at a concrete description, discharging the capture
hypothesis by evaluation. -/
theorem C7_crash_state_cleanup_witness :
    captureStrict "Crash State:\n  a\n  b\n\nSanitizer: ASAN" crashStatePat =
      Except.ok "  a\n  b" ∧
    get_crash_state "Crash State:\n  a\n  b\n\nSanitizer: ASAN" =
      Except.ok ((((pySplit '\n' ("  a\n  b").data).map pyStrip).filter
        (fun l => 0 < l.length)).map String.mk) :=
  ⟨by decide,
   C7_crash_state_cleanup.1 "Crash State:\n  a\n  b\n\nSanitizer: ASAN" "  a\n  b" (by decide)⟩

/-- The comment loop of the fixed-commits rule equals the declarative
filter-then-first-match formulation. -/
theorem fixedScan_filter (pat : Pattern) (comments : List Comment) :
    fixedScan pat comments =
      (comments.filter (fun c => c.author == "ClusterFuzz-External")).findSome?
        (fun c => pat.search c.body) := by
  induction comments with
  | nil => rfl
  | cons c rest ih =>
    by_cases h : c.author = "ClusterFuzz-External"
    · cases hs : pat.search c.body <;>
        simp [fixedScan, h, hs, List.filter_cons, List.findSome?_cons, ih]
    · simp [fixedScan, h, List.filter_cons, ih]

/-- C8: the fixed-commits rule scans comments in thread order, considers only
comments authored exactly by the ClusterFuzz-External string (a fuzzily equal
but not identical author is skipped), applies the id-selected pattern (Fixed
for id at most 14834, the verified-as-fixed pattern from 14835 on) to each such
body, returns the first match, and returns the explicit absent value when no
comment matches. -/
theorem C8_fixed_commits_scan :
    (∀ (comments : List Comment) (id : Nat),
      get_fixed_commits_url comments id =
        (comments.filter (fun c => c.author == "ClusterFuzz-External")).findSome?
          (fun c => (if id ≤ 14834 then fixedPat else verifiedFixedPat).search c.body)) ∧
    get_fixed_commits_url
      [⟨"ClusterFuzz-External", "ClusterFuzz testcase 123 is verified as fixed in abcd1234\n"⟩,
       ⟨"someone-else", "unrelated\n"⟩] 20000 = some "abcd1234" ∧
    get_fixed_commits_url
      [⟨"someone-else", "ClusterFuzz testcase 123 is verified as fixed in abcd1234\n"⟩]
      20000 = none ∧
    get_fixed_commits_url [⟨"ClusterFuzz-External", "Fixed: deadbeef\n"⟩] 14834 =
      some "deadbeef" ∧
    (almost_equal (some "clusterfuzz-external") (some "ClusterFuzz-External") = true ∧
      get_fixed_commits_url [⟨"clusterfuzz-external", "Fixed: deadbeef\n"⟩] 14834 = none) := by
  refine ⟨?_, by decide, by decide, by decide, by decide, by decide⟩
  intro comments id
  exact fixedScan_filter _ comments

/-- C9: `almost_equal` is reflexive and symmetric on all inputs; two absent
values are equal, an absent and a present value are never equal, and two
present strings are equal exactly when their processed forms (strip, casefold,
non-word characters removed) coincide — in particular on the spec's sample
pair. -/
theorem C9_almost_equal_props :
    (∀ a : Option String, almost_equal a a = true) ∧
    (∀ a b : Option String, almost_equal a b = almost_equal b a) ∧
    almost_equal none none = true ∧
    (∀ s : String, almost_equal none (some s) = false ∧ almost_equal (some s) none = false) ∧
    (∀ s1 s2 : String,
      almost_equal (some s1) (some s2) = true ↔ processedChars s1 = processedChars s2) ∧
    almost_equal (some "OSS-Fuzz") (some " oss fuzz ") = true := by
  refine ⟨?_, ?_, rfl, ?_, ?_, by decide⟩
  · intro a
    cases a with
    | none => rfl
    | some s => simp [almost_equal]
  · intro a b
    cases a with
    | none => cases b <;> rfl
    | some s1 =>
      cases b with
      | none => rfl
      | some s2 =>
        show decide (processedChars s1 = processedChars s2) =
          decide (processedChars s2 = processedChars s1)
        exact decide_eq_decide.mpr eq_comm
  · intro s
    exact ⟨rfl, rfl⟩
  · intro s1 s2
    simp [almost_equal]

/-- C10: when a description contains the Crash State marker followed by a
newline but the block after it is never terminated before end-of-text by a
Sanitizer line or a blank line, the crash-state rule raises a hard failure
instead of returning the trailing lines: whenever the multi-line pattern has
no match the rule errors, and on a concrete description whose crash-state
lines are the last thing in the text the pattern indeed has no match, while
adding a terminating blank line makes the same lines parse. -/
theorem C10_unterminated_crash_state :
    (∀ d : String, crashStatePat.search d = none →
      get_crash_state d = Except.error (PyError.warning crashStatePat.regex)) ∧
    get_crash_state "Crash State:\n  frame_one\n  frame_two" =
      Except.error (PyError.warning crashStatePat.regex) ∧
    get_crash_state "Crash State:\n  frame_one\n  frame_two\n\n" =
      Except.ok ["frame_one", "frame_two"] := by
  refine ⟨?_, by decide, by decide⟩
  intro d h
  simp [get_crash_state, captureStrict, h, exceptBindError]

/-- Witness for C10 at a concrete unterminated description, discharging the
no-match hypothesis by evaluation. -/
theorem C10_unterminated_crash_state_witness :
    crashStatePat.search "Crash State:\n  lone_frame" = none ∧
    get_crash_state "Crash State:\n  lone_frame" =
      Except.error (PyError.warning crashStatePat.regex) :=
  ⟨by decide, C10_unterminated_crash_state.1 "Crash State:\n  lone_frame" (by decide)⟩

end Monorail
